import Mathlib

/-!
Shallow embedding of `drivers/net/ethernet/stmicro/stmmac/dwmac-starfive.c`
(StarFive DWMAC platform driver glue) and proofs about its behaviour.

The driver's observable behaviour consists of kernel log messages, clock-rate
requests, and syscon register writes performed through the regmap abstraction.
We model each function as a pure map from its inputs (plus an environment that
fixes the results of the host-provided collaborators it calls) to its C return
value and the list of observable effects it performs, in order.

The two locals that the C code can read uninitialized (`rate` in
`starfive_eth_fix_mac_speed` and `mode` in `starfive_dwmac_set_mode`) are
modelled as explicit indeterminate parameters (`rate0`, `mode0`): the embedded
function receives the junk value those locals would start with, so theorems
quantifying over them capture every possible concrete behaviour of the
undefined read.
-/

namespace DwmacStarfive

/-- Embeds `#define MACPHYC_PHY_INFT_RMII 0x4` (dwmac-starfive.c line 16). -/
def MACPHYC_PHY_INFT_RMII : Nat := 0x4

/-- Embeds `#define MACPHYC_PHY_INFT_RGMII 0x1` (dwmac-starfive.c line 17). -/
def MACPHYC_PHY_INFT_RGMII : Nat := 0x1

/-- Ethtool speed constant `SPEED_10` (include/uapi/linux/ethtool.h). -/
def SPEED_10 : Nat := 10

/-- Ethtool speed constant `SPEED_100`. -/
def SPEED_100 : Nat := 100

/-- Ethtool speed constant `SPEED_1000`. -/
def SPEED_1000 : Nat := 1000

/-- Errno `EINVAL` (invalid argument), value 22. -/
def EINVAL : Int := 22

/-- Errno `ENOMEM` (out of memory), value 12. -/
def ENOMEM : Int := 12

/-- The two named clocks the driver acquires ("tx" and "gtx"). -/
inductive ClkId
  | tx
  | gtx
deriving DecidableEq

/-- The PHY interface enumerators (`phy_interface_t`, include/linux/phy.h)
relevant to this driver: the three values it handles plus representatives of
every other enumerator, which all take the `default:` branch. -/
inductive PhyInterfaceMode
  | na
  | internal
  | mii
  | gmii
  | sgmii
  | tbi
  | revmii
  | rmii
  | rgmii
  | rgmii_id
  | rgmii_rxid
  | rgmii_txid
  | rtbi
  | smii
  | xgmii
deriving DecidableEq

/-- Observable effects of the driver code: kernel log messages
(`dev_err`, `dev_dbg`, `dev_err_probe`), a `clk_set_rate` request, a
`regmap_update_bits` masked register write, and the two external stmmac
framework calls made by probe. -/
inductive Effect
  | devErr (msg : String)
  | devDbg (msg : String)
  | devErrProbe (msg : String)
  | clkSetRate (clk : ClkId) (rate : Nat)
  | regmapUpdateBits (reg mask val : Nat)
  | stmmacDvrProbe
  | stmmacRemoveConfigDt
deriving DecidableEq

/-- Fuel-bounded helper for `__ffs`: index of the lowest set bit. -/
def ffsAux : Nat → Nat → Nat
  | 0, _ => 0
  | fuel + 1, m => if m % 2 = 1 then 0 else ffsAux fuel (m / 2) + 1

/-- Embeds the kernel bit helper `__ffs(x)`: index of the lowest set bit of a
32-bit word (its C result is undefined for `x = 0`). -/
def __ffs (n : Nat) : Nat := ffsAux 32 n

/-- Embeds `struct starfive_dwmac` (dwmac-starfive.c lines 19-24); only the
field read by `starfive_eth_fix_mac_speed` is needed (the `dev` pointer and
clock handles are identified implicitly by the effect trace). -/
structure StarfiveDwmac where
  tx_use_rgmii_rxin_clk : Bool

/-- Embeds `starfive_eth_fix_mac_speed` (dwmac-starfive.c lines 26-59).
`rate0` is the indeterminate initial value of the uninitialized local `rate`
(read by `clk_set_rate` on the `default:` path of the switch);
`clk_set_rate_err` gives the error code `clk_set_rate` returns for a requested
rate.  Returns the list of effects the call performs, in order. -/
def starfive_eth_fix_mac_speed (dwmac : StarfiveDwmac) (speed : Nat)
    (rate0 : Nat) (clk_set_rate_err : Nat → Int) : List Effect :=
  if dwmac.tx_use_rgmii_rxin_clk then []
  else
    let m : Nat × List Effect :=
      if speed = SPEED_1000 then (125000000, [])
      else if speed = SPEED_100 then (25000000, [])
      else if speed = SPEED_10 then (2500000, [])
      else (rate0, [Effect.devErr "invalid speed"])
    let rate := m.1
    let err := clk_set_rate_err rate
    m.2 ++ [Effect.clkSetRate ClkId.tx rate] ++
      (if err ≠ 0 then [Effect.devErr "failed to set tx rate"] else [])

/-- The clock-rate requests contained in an effect trace, in order. -/
def clkRateRequests (tr : List Effect) : List (ClkId × Nat) :=
  tr.filterMap fun e =>
    match e with
    | Effect.clkSetRate c r => some (c, r)
    | _ => none

/-- Embeds `struct of_phandle_args` as filled by
`of_parse_phandle_with_fixed_args(.., "starfive,syscon", 2, 0, &args)`:
the referenced node and the two `u32` phandle arguments (register offset and
mask). -/
structure OfPhandleArgs where
  np : Nat
  args0 : Nat
  args1 : Nat

/-- Results of the host collaborators called by `starfive_dwmac_set_mode`,
plus the indeterminate initial value `mode0` of the uninitialized local
`mode` (read on the `default:` path of the interface switch).
`phandle` is the outcome of `of_parse_phandle_with_fixed_args`;
`regmapErr` is `some e` when `syscon_node_to_regmap` yields `IS_ERR` with
`PTR_ERR = e`; `updateBitsRet` is the value `regmap_update_bits` returns. -/
structure SetModeEnv where
  phandle : Except Int OfPhandleArgs
  regmapErr : Option Int
  updateBitsRet : Int
  mode0 : Nat

/-- Embeds `starfive_dwmac_set_mode` (dwmac-starfive.c lines 61-99).
Returns the C `int` result and the effect trace, in order. -/
def starfive_dwmac_set_mode (interface : PhyInterfaceMode) (env : SetModeEnv) :
    Int × List Effect :=
  let m : Nat × List Effect :=
    match interface with
    | PhyInterfaceMode.rmii => (MACPHYC_PHY_INFT_RMII, [])
    | PhyInterfaceMode.rgmii => (MACPHYC_PHY_INFT_RGMII, [])
    | PhyInterfaceMode.rgmii_id => (MACPHYC_PHY_INFT_RGMII, [])
    | _ => (env.mode0, [Effect.devErr "Unsupported interface"])
  let mode := m.1
  match env.phandle with
  | Except.error _ => (-EINVAL, m.2 ++ [Effect.devDbg "syscon reg not found"])
  | Except.ok args =>
    let reg := args.args0
    let mask := args.args1
    match env.regmapErr with
    | some e => (e, m.2)
    | none =>
      (env.updateBitsRet,
        m.2 ++ [Effect.regmapUpdateBits reg mask ((mode <<< __ffs mask) % 2 ^ 32)])

/-- Modelled from the spec: `regmap_update_bits` is a kernel collaborator not
present in src/; per the spec the mode code is "applied under mask" through "a
generic register-map write", i.e. a read-modify-write of one 32-bit register
where the bits selected by `mask` are replaced by the corresponding bits of
`val` and every other bit keeps its prior value. -/
def regmap_update_bits (old mask val : Nat) : Nat :=
  (old &&& (mask ^^^ (2 ^ 32 - 1))) ||| (val &&& mask)

/-- The value of the syscon register after applying every
`regmapUpdateBits` effect of a trace to prior value `old`, in order. -/
def applyTrace (old : Nat) (tr : List Effect) : Nat :=
  tr.foldl
    (fun r e =>
      match e with
      | Effect.regmapUpdateBits _ mask val => regmap_update_bits r mask val
      | _ => r)
    old

/-- The `(reg, mask, val)` register writes contained in a trace, in order. -/
def updateEvents (tr : List Effect) : List (Nat × Nat × Nat) :=
  tr.filterMap fun e =>
    match e with
    | Effect.regmapUpdateBits r m v => some (r, m, v)
    | _ => none

/-- Results of the host collaborators called by `starfive_dwmac_probe`
(dwmac-starfive.c lines 101-149): `get_platform_resources` is the `int` from
`stmmac_get_platform_resources` (0 = success); `probe_config_dt` is the
outcome of `stmmac_probe_config_dt` (`error e` models `IS_ERR` with
`PTR_ERR = e`); `kzalloc_ok` is whether `devm_kzalloc` succeeds; `clk_tx`
and `clk_gtx` are the outcomes of the two `devm_clk_get_enabled` calls;
`tx_use_rgmii_clk` is the `device_property_read_bool` result; `interface`
is `plat_dat->interface`; `set_mode_env` is the environment of the inner
`starfive_dwmac_set_mode` call; `dvr_probe` is the `int` from
`stmmac_dvr_probe`. -/
structure ProbeEnv where
  get_platform_resources : Int
  probe_config_dt : Except Int Unit
  kzalloc_ok : Bool
  clk_tx : Except Int Unit
  clk_gtx : Except Int Unit
  tx_use_rgmii_clk : Bool
  interface : PhyInterfaceMode
  set_mode_env : SetModeEnv
  dvr_probe : Int

/-- Embeds `starfive_dwmac_probe` (dwmac-starfive.c lines 101-149).
Returns the C `int` result and the effect trace, in order.  Note line 141:
the result of `starfive_dwmac_set_mode` is discarded. -/
def starfive_dwmac_probe (env : ProbeEnv) : Int × List Effect :=
  if env.get_platform_resources ≠ 0 then (env.get_platform_resources, [])
  else
    match env.probe_config_dt with
    | Except.error e => (e, [Effect.devErr "dt configuration failed"])
    | Except.ok _ =>
      if env.kzalloc_ok = false then (-ENOMEM, [])
      else
        match env.clk_tx with
        | Except.error e => (e, [Effect.devErrProbe "error getting tx clock"])
        | Except.ok _ =>
          match env.clk_gtx with
          | Except.error e => (e, [Effect.devErrProbe "error getting gtx clock"])
          | Except.ok _ =>
            let sm := starfive_dwmac_set_mode env.interface env.set_mode_env
            let tr := sm.2 ++ [Effect.stmmacDvrProbe]
            if env.dvr_probe ≠ 0 then
              (env.dvr_probe, tr ++ [Effect.stmmacRemoveConfigDt])
            else (0, tr)

/-- Helper: `clkRateRequests` distributes over list append. -/
theorem clkRateRequests_append (a b : List Effect) :
    clkRateRequests (a ++ b) = clkRateRequests a ++ clkRateRequests b := by
  simp [clkRateRequests]

/-- Helper: full characterization of the clock-rate requests issued by
`starfive_eth_fix_mac_speed` with the external-clock flag unset: exactly one
request on the "tx" clock, whose rate is the table value for the three
supported speeds and the indeterminate `rate0` otherwise. -/
theorem fix_mac_speed_requests (speed rate0 : Nat) (f : Nat → Int) :
    clkRateRequests (starfive_eth_fix_mac_speed ⟨false⟩ speed rate0 f) =
      [(ClkId.tx,
        if speed = SPEED_1000 then 125000000
        else if speed = SPEED_100 then 25000000
        else if speed = SPEED_10 then 2500000
        else rate0)] := by
  simp only [starfive_eth_fix_mac_speed]
  split_ifs <;> simp_all [clkRateRequests_append, clkRateRequests]

/-- Helper: on an unrecognized speed (flag unset) the "invalid speed" error is
logged. -/
theorem fix_mac_speed_err_mem (speed rate0 : Nat) (f : Nat → Int)
    (h1 : speed ≠ SPEED_1000) (h2 : speed ≠ SPEED_100) (h3 : speed ≠ SPEED_10) :
    Effect.devErr "invalid speed" ∈ starfive_eth_fix_mac_speed ⟨false⟩ speed rate0 f := by
  simp only [starfive_eth_fix_mac_speed]
  split_ifs <;> simp_all

/-- C2: with the external-clock flag unset, each of the three supported speeds
yields exactly the documented transmit-clock rate request:
1000 → 125000000 Hz, 100 → 25000000 Hz, 10 → 2500000 Hz, on the "tx" clock —
for every indeterminate `rate0` and every behaviour of `clk_set_rate`. -/
theorem fix_mac_speed_rates (rate0 : Nat) (f : Nat → Int) :
    clkRateRequests (starfive_eth_fix_mac_speed ⟨false⟩ SPEED_1000 rate0 f) =
      [(ClkId.tx, 125000000)] ∧
    clkRateRequests (starfive_eth_fix_mac_speed ⟨false⟩ SPEED_100 rate0 f) =
      [(ClkId.tx, 25000000)] ∧
    clkRateRequests (starfive_eth_fix_mac_speed ⟨false⟩ SPEED_10 rate0 f) =
      [(ClkId.tx, 2500000)] := by
  refine ⟨?_, ?_, ?_⟩ <;>
    simp [fix_mac_speed_requests, SPEED_1000, SPEED_100, SPEED_10]

/-- C5: when `tx_use_rgmii_rxin_clk` is set, `starfive_eth_fix_mac_speed` is a
no-op for every speed: it performs no effect at all (in particular no
clock-rate request). -/
theorem fix_mac_speed_external_clk_noop (speed rate0 : Nat) (f : Nat → Int) :
    starfive_eth_fix_mac_speed ⟨true⟩ speed rate0 f = [] := rfl

/-- C4 (code bug): with the flag unset and an unrecognized speed (here 50),
the code logs "invalid speed" but then falls through the `switch` and still
calls `clk_set_rate` on the "tx" clock — with the uninitialized local `rate`,
i.e. the indeterminate value `rate0` — contradicting the claim that no
clock-rate request is made on that path. -/
theorem fix_mac_speed_invalid_speed_still_requests_rate (rate0 : Nat) (f : Nat → Int) :
    clkRateRequests (starfive_eth_fix_mac_speed ⟨false⟩ 50 rate0 f) =
      [(ClkId.tx, rate0)] ∧
    Effect.devErr "invalid speed" ∈ starfive_eth_fix_mac_speed ⟨false⟩ 50 rate0 f :=
  ⟨by simp [fix_mac_speed_requests, SPEED_1000, SPEED_100, SPEED_10],
   fix_mac_speed_err_mem 50 rate0 f (by decide) (by decide) (by decide)⟩

/-- Helper: `updateEvents` distributes over list append. -/
theorem updateEvents_append (a b : List Effect) :
    updateEvents (a ++ b) = updateEvents a ++ updateEvents b := by
  simp [updateEvents]

/-- Helper: reducing a value modulo `2 ^ 32` does not change its bits under a
32-bit mask. -/
theorem mod_two_pow_and_eq (x mask : Nat) (hmask : mask < 2 ^ 32) :
    (x % 2 ^ 32) &&& mask = x &&& mask := by
  apply Nat.eq_of_testBit_eq
  intro i
  simp only [Nat.testBit_and, Nat.testBit_mod_two_pow]
  by_cases h : i < 32
  · simp [h]
  · have hb : mask.testBit i = false :=
      Nat.testBit_lt_two_pow
        (lt_of_lt_of_le hmask (Nat.pow_le_pow_right (by norm_num) (by omega)))
    simp [h, hb]

/-- Helper: `regmap_update_bits` leaves every bit outside the mask unchanged
(for a 32-bit prior value). -/
theorem regmap_update_bits_frame (old mask val i : Nat)
    (hold : old < 2 ^ 32) (hbit : mask.testBit i = false) :
    (regmap_update_bits old mask val).testBit i = old.testBit i := by
  simp only [regmap_update_bits, Nat.testBit_or, Nat.testBit_and, Nat.testBit_xor,
    Nat.testBit_two_pow_sub_one, hbit]
  by_cases h : i < 32
  · simp [h]
  · have hoi : old.testBit i = false :=
      Nat.testBit_lt_two_pow
        (lt_of_lt_of_le hold (Nat.pow_le_pow_right (by norm_num) (by omega)))
    simp [h, hoi]

/-- Helper: with a failed phandle lookup, `starfive_dwmac_set_mode` performs
no register write, whatever the interface value. -/
theorem updateEvents_set_mode_phandle_err (intf : PhyInterfaceMode)
    (e ub : Int) (rm : Option Int) (mode0 : Nat) :
    updateEvents (starfive_dwmac_set_mode intf ⟨Except.error e, rm, ub, mode0⟩).2 = [] := by
  cases intf <;> rfl

/-- C1: for the two supported PHY interface types, `starfive_dwmac_set_mode`
computes the documented constant (RMII → 0x4, RGMII → 0x1) and issues exactly
one masked register write of `mode << __ffs(mask)` (as a 32-bit value) to the
`(reg, mask)` pair from the device tree; under the 32-bit mask the truncated
value coincides with `mode << __ffs(mask)` itself. -/
theorem set_mode_supported_modes (np reg mask mode0 : Nat) (ub : Int)
    (hmask : mask < 2 ^ 32) :
    updateEvents (starfive_dwmac_set_mode PhyInterfaceMode.rmii
        ⟨Except.ok ⟨np, reg, mask⟩, none, ub, mode0⟩).2 =
      [(reg, mask, (MACPHYC_PHY_INFT_RMII <<< __ffs mask) % 2 ^ 32)] ∧
    updateEvents (starfive_dwmac_set_mode PhyInterfaceMode.rgmii
        ⟨Except.ok ⟨np, reg, mask⟩, none, ub, mode0⟩).2 =
      [(reg, mask, (MACPHYC_PHY_INFT_RGMII <<< __ffs mask) % 2 ^ 32)] ∧
    ((MACPHYC_PHY_INFT_RMII <<< __ffs mask) % 2 ^ 32) &&& mask =
      (MACPHYC_PHY_INFT_RMII <<< __ffs mask) &&& mask ∧
    ((MACPHYC_PHY_INFT_RGMII <<< __ffs mask) % 2 ^ 32) &&& mask =
      (MACPHYC_PHY_INFT_RGMII <<< __ffs mask) &&& mask :=
  ⟨rfl, rfl, mod_two_pow_and_eq _ mask hmask, mod_two_pow_and_eq _ mask hmask⟩

/-- Witness for C1 at `np = 0`, `reg = 8`, `mask = 48`. -/
theorem set_mode_supported_modes_witness :
    (48 : Nat) < 2 ^ 32 ∧
    (updateEvents (starfive_dwmac_set_mode PhyInterfaceMode.rmii
        ⟨Except.ok ⟨0, 8, 48⟩, none, 0, 0⟩).2 =
      [(8, 48, (MACPHYC_PHY_INFT_RMII <<< __ffs 48) % 2 ^ 32)] ∧
    updateEvents (starfive_dwmac_set_mode PhyInterfaceMode.rgmii
        ⟨Except.ok ⟨0, 8, 48⟩, none, 0, 0⟩).2 =
      [(8, 48, (MACPHYC_PHY_INFT_RGMII <<< __ffs 48) % 2 ^ 32)] ∧
    ((MACPHYC_PHY_INFT_RMII <<< __ffs 48) % 2 ^ 32) &&& 48 =
      (MACPHYC_PHY_INFT_RMII <<< __ffs 48) &&& 48 ∧
    ((MACPHYC_PHY_INFT_RGMII <<< __ffs 48) % 2 ^ 32) &&& 48 =
      (MACPHYC_PHY_INFT_RGMII <<< __ffs 48) &&& 48) :=
  ⟨by norm_num, set_mode_supported_modes 0 8 48 0 0 (by norm_num)⟩

/-- C3 (code bug): for an unsupported interface (here MII) with a successful
syscon lookup, `starfive_dwmac_set_mode` logs the error but does NOT exit
early: it falls through, performs the phandle lookup and writes the register
with the uninitialized local `mode` — the indeterminate value `mode0` —
contradicting the claim of an early exit without a register write. -/
theorem set_mode_unsupported_writes_stale_mode (np reg mask mode0 : Nat) (ub : Int) :
    starfive_dwmac_set_mode PhyInterfaceMode.mii
        ⟨Except.ok ⟨np, reg, mask⟩, none, ub, mode0⟩ =
      (ub, [Effect.devErr "Unsupported interface",
            Effect.regmapUpdateBits reg mask ((mode0 <<< __ffs mask) % 2 ^ 32)]) := rfl

/-- C6: whenever the "starfive,syscon" phandle lookup fails, the
mode-configuration step returns `-EINVAL` after logging at debug level and no
syscon register write is issued — neither by `starfive_dwmac_set_mode` itself
nor anywhere in `starfive_dwmac_probe`'s whole trace. -/
theorem set_mode_phandle_failure_einval (intf : PhyInterfaceMode)
    (e ub : Int) (rm : Option Int) (mode0 : Nat)
    (gpr : Int) (pcd : Except Int Unit) (kz : Bool) (ctx cgx : Except Int Unit)
    (flag : Bool) (dvr : Int) :
    (starfive_dwmac_set_mode intf ⟨Except.error e, rm, ub, mode0⟩).1 = -EINVAL ∧
    Effect.devDbg "syscon reg not found" ∈
      (starfive_dwmac_set_mode intf ⟨Except.error e, rm, ub, mode0⟩).2 ∧
    updateEvents (starfive_dwmac_set_mode intf ⟨Except.error e, rm, ub, mode0⟩).2 = [] ∧
    updateEvents (starfive_dwmac_probe
        ⟨gpr, pcd, kz, ctx, cgx, flag, intf, ⟨Except.error e, rm, ub, mode0⟩, dvr⟩).2 = [] := by
  refine ⟨?_, ?_, updateEvents_set_mode_phandle_err intf e ub rm mode0, ?_⟩
  · cases intf <;> rfl
  · cases intf <;> simp [starfive_dwmac_set_mode]
  · unfold starfive_dwmac_probe
    repeat' split
    all_goals first
      | rfl
      | (simp only [updateEvents_append, updateEvents_set_mode_phandle_err]
         rfl)

/-- C9: the register write of `starfive_dwmac_set_mode` is a masked update:
for every interface value, every device-tree `(reg, mask)` pair, every
indeterminate `mode0` and every 32-bit prior register value, all bits outside
the mask keep their prior value after applying the trace's writes. -/
theorem set_mode_masked_update_frame (intf : PhyInterfaceMode)
    (np reg mask mode0 : Nat) (ub : Int) (old i : Nat)
    (hold : old < 2 ^ 32) (hbit : mask.testBit i = false) :
    (applyTrace old (starfive_dwmac_set_mode intf
        ⟨Except.ok ⟨np, reg, mask⟩, none, ub, mode0⟩).2).testBit i = old.testBit i := by
  cases intf <;> exact regmap_update_bits_frame old mask _ i hold hbit

/-- Witness for C9 at interface RMII, `mask = 48`, prior value `0xABCD`,
bit 0 (outside the mask). -/
theorem set_mode_masked_update_frame_witness :
    (0xABCD : Nat) < 2 ^ 32 ∧ (48 : Nat).testBit 0 = false ∧
    (applyTrace 0xABCD (starfive_dwmac_set_mode PhyInterfaceMode.rmii
        ⟨Except.ok ⟨0, 8, 48⟩, none, 0, 0⟩).2).testBit 0 = (0xABCD : Nat).testBit 0 :=
  ⟨by norm_num, by decide,
   set_mode_masked_update_frame PhyInterfaceMode.rmii 0 8 48 0 0 0xABCD 0
     (by norm_num) (by decide)⟩

/-- C10: `PHY_INTERFACE_MODE_RGMII_ID` is handled identically to
`PHY_INTERFACE_MODE_RGMII` in every environment, and both produce mode code
0x1 in the register write. -/
theorem set_mode_rgmii_id_matches_rgmii (env : SetModeEnv)
    (np reg mask mode0 : Nat) (ub : Int) :
    starfive_dwmac_set_mode PhyInterfaceMode.rgmii_id env =
      starfive_dwmac_set_mode PhyInterfaceMode.rgmii env ∧
    updateEvents (starfive_dwmac_set_mode PhyInterfaceMode.rgmii_id
        ⟨Except.ok ⟨np, reg, mask⟩, none, ub, mode0⟩).2 =
      [(reg, mask, (MACPHYC_PHY_INFT_RGMII <<< __ffs mask) % 2 ^ 32)] :=
  ⟨rfl, rfl⟩

/-- C7: whenever `starfive_dwmac_probe` gets past resource acquisition (the
stmmac platform helpers, the allocation and the two clocks succeed), it
invokes `stmmac_dvr_probe` no matter what `starfive_dwmac_set_mode` did: the
interface value and the whole set-mode environment (success, unsupported
interface, phandle failure, regmap failure) are universally quantified and
the discarded result is never inspected. -/
theorem probe_calls_dvr_probe_regardless (env : ProbeEnv)
    (h1 : env.get_platform_resources = 0)
    (h2 : env.probe_config_dt = Except.ok ())
    (h3 : env.kzalloc_ok = true)
    (h4 : env.clk_tx = Except.ok ())
    (h5 : env.clk_gtx = Except.ok ()) :
    Effect.stmmacDvrProbe ∈ (starfive_dwmac_probe env).2 := by
  simp only [starfive_dwmac_probe, h1, h2, h3, h4, h5]
  norm_num
  split <;> simp

/-- Witness for C7: a fully successful environment except that the inner
set-mode call sees a failed phandle lookup; `stmmac_dvr_probe` is still
invoked. -/
theorem probe_calls_dvr_probe_regardless_witness :
    Effect.stmmacDvrProbe ∈ (starfive_dwmac_probe
      ⟨0, Except.ok (), true, Except.ok (), Except.ok (), false,
       PhyInterfaceMode.rmii, ⟨Except.error (-EINVAL), none, 0, 0⟩, 0⟩).2 :=
  probe_calls_dvr_probe_regardless _ rfl rfl rfl rfl rfl

/-- C8: if acquiring the "tx" clock (or, with "tx" acquired, the "gtx" clock)
fails, `starfive_dwmac_probe` returns the underlying error immediately — the
result is exactly the error code with the single probe-error log as effect —
and `stmmac_dvr_probe` is never invoked. -/
theorem probe_clk_failure_aborts (env : ProbeEnv) (e : Int)
    (h1 : env.get_platform_resources = 0)
    (h2 : env.probe_config_dt = Except.ok ())
    (h3 : env.kzalloc_ok = true) :
    (env.clk_tx = Except.error e →
      starfive_dwmac_probe env = (e, [Effect.devErrProbe "error getting tx clock"]) ∧
      Effect.stmmacDvrProbe ∉ (starfive_dwmac_probe env).2) ∧
    (env.clk_tx = Except.ok () → env.clk_gtx = Except.error e →
      starfive_dwmac_probe env = (e, [Effect.devErrProbe "error getting gtx clock"]) ∧
      Effect.stmmacDvrProbe ∉ (starfive_dwmac_probe env).2) := by
  constructor
  · intro h4
    have hres : starfive_dwmac_probe env =
        (e, [Effect.devErrProbe "error getting tx clock"]) := by
      simp [starfive_dwmac_probe, h1, h2, h3, h4]
    exact ⟨hres, by rw [hres]; simp⟩
  · intro h4 h5
    have hres : starfive_dwmac_probe env =
        (e, [Effect.devErrProbe "error getting gtx clock"]) := by
      simp [starfive_dwmac_probe, h1, h2, h3, h4, h5]
    exact ⟨hres, by rw [hres]; simp⟩

/-- Witness for C8: with the "tx" clock failing with error -2, probe returns
-2 having only logged, and `stmmac_dvr_probe` does not appear in the trace. -/
theorem probe_clk_failure_aborts_witness :
    starfive_dwmac_probe
        ⟨0, Except.ok (), true, Except.error (-2), Except.ok (), false,
         PhyInterfaceMode.rmii, ⟨Except.ok ⟨0, 8, 48⟩, none, 0, 0⟩, 0⟩ =
      (-2, [Effect.devErrProbe "error getting tx clock"]) ∧
    Effect.stmmacDvrProbe ∉ (starfive_dwmac_probe
        ⟨0, Except.ok (), true, Except.error (-2), Except.ok (), false,
         PhyInterfaceMode.rmii, ⟨Except.ok ⟨0, 8, 48⟩, none, 0, 0⟩, 0⟩).2 :=
  (probe_clk_failure_aborts _ (-2) rfl rfl rfl).1 rfl

example : __ffs 48 = 4 := by decide

example : starfive_eth_fix_mac_speed ⟨false⟩ 1000 7 (fun _ => 0) =
    [Effect.clkSetRate ClkId.tx 125000000] := by decide

example : starfive_eth_fix_mac_speed ⟨false⟩ 55 7 (fun _ => 0) =
    [Effect.devErr "invalid speed", Effect.clkSetRate ClkId.tx 7] := by decide

example : starfive_dwmac_set_mode PhyInterfaceMode.rmii ⟨Except.ok ⟨1, 8, 48⟩, none, 0, 9⟩ =
    (0, [Effect.regmapUpdateBits 8 48 64]) := by decide

example : starfive_dwmac_set_mode PhyInterfaceMode.mii ⟨Except.ok ⟨1, 8, 48⟩, none, 0, 9⟩ =
    (0, [Effect.devErr "Unsupported interface", Effect.regmapUpdateBits 8 48 144]) := by decide

end DwmacStarfive
